import Mathlib

/-
Verification of src/static/likes.js (flask-warbler front-end like toggle).

The file embeds the JavaScript handler

  async function toggleLike(evt) {
    evt.preventDefault();
    console.log("This was toggled");
    const messageId = $(evt.target).closest(".like-form").data("message-id");
    const csrf_token = $favButton.data("csrf");
    console.log("This is the csrf:", csrf_token);
    console.log("This is messageId", messageId);
    axios.defaults.headers.common["X-CSRFToken"] = csrf_token;
    const resp = await axios.post(BASE_URL + "/messages/" + messageId + "/like");
    if (resp.data.favorited == true) {
      $favIcon.removeClass("bi-star").addClass("bi-star-fill text-warning");
    } else {
      $favIcon.removeClass("bi-star-fill text-warning").addClass("bi-star");
    }
  }

together with the module-level state

  const BASE_URL = "http://localhost:5001/api";
  const $favButton = $(".fav-button");
  const $favIcon = $(".fav-icon");

as explicit state passing: the DOM page is a list of elements, jQuery
selections are the lists of element ids captured at load time, the axios
default-header table is an association list, and the `await` point splits the
handler into a synchronous prefix (up to and including issuing the POST) and a
continuation (the class mutation) run when the response arrives.  The
response is an explicit outcome: either it resolves with a JSON payload or
the promise rejects.
-/

set_option autoImplicit false

namespace WarblerLikes

/-- JavaScript values as they occur in this program: `undefined`, `null`,
booleans, numbers and strings.  All numbers in play are integers, so numbers
are modelled as `Int`; a string whose `ToNumber` conversion is `NaN` is
modelled by the parser below returning `none`. -/
inductive JSValue where
  | undef
  | null
  | bool (b : Bool)
  | num (n : Int)
  | str (s : String)
  deriving Repr, DecidableEq

/-- Numeric value of a list of decimal digit characters. -/
def digitsVal (l : List Char) : Nat :=
  l.foldl (fun a c => a * 10 + (c.toNat - 48)) 0

/-- Whether a list of characters is a nonempty run of decimal digits. -/
def isDigits (l : List Char) : Bool :=
  !l.isEmpty && l.all (fun c => c.isDigit)

/-- JavaScript whitespace characters that `ToNumber` strips from both ends of
a string (space, tab, line feed, carriage return). -/
def jsIsSpace (c : Char) : Bool :=
  c == ' ' || c == '\t' || c == '\n' || c == '\r'

/-- Strip leading and trailing JavaScript whitespace from a character list. -/
def trimChars (l : List Char) : List Char :=
  ((l.dropWhile jsIsSpace).reverse.dropWhile jsIsSpace).reverse

/-- JavaScript `ToNumber` on strings, restricted to the optionally signed
decimal integer numerals that occur in this program: surrounding whitespace
is trimmed, the empty string converts to `0`, and a string that is not an
integer numeral converts to `NaN`, modelled as `none`.  (Fractional or
exponent numerals do not occur in the repository's data attributes or JSON
payloads, so they are folded into the `NaN` case.) -/
def strToInt? (s : String) : Option Int :=
  match trimChars s.toList with
  | [] => some 0
  | '-' :: rest => if isDigits rest then some (-(digitsVal rest : Int)) else none
  | '+' :: rest => if isDigits rest then some ((digitsVal rest : Int)) else none
  | l => if isDigits l then some ((digitsVal l : Int)) else none

/-- jQuery's `.data()` type conversion of an HTML data attribute: the strings
"true", "false" and "null" become the corresponding values, and a string
becomes a number exactly when converting it to a number and back yields the
same string (jQuery's `+data + "" === data` check); every other string stays
a string. -/
def jqDataConvert (s : String) : JSValue :=
  if s = "true" then JSValue.bool true
  else if s = "false" then JSValue.bool false
  else if s = "null" then JSValue.null
  else
    match strToInt? s with
    | some n => if toString n = s then JSValue.num n else JSValue.str s
    | none => JSValue.str s

/-- JavaScript string interpolation of a value into a template literal:
`undefined` prints as "undefined", `null` as "null", booleans and numbers by
their usual rendering. -/
def jsToString : JSValue → String
  | JSValue.undef => "undefined"
  | JSValue.null => "null"
  | JSValue.bool true => "true"
  | JSValue.bool false => "false"
  | JSValue.num n => toString n
  | JSValue.str s => s

/-- JavaScript loose equality `v == true`.  Abstract equality first converts
the boolean `true` to the number `1`; a number then compares numerically, a
string is converted with `ToNumber` (yielding no value, i.e. `NaN`, for
non-numeric strings, and `NaN` is equal to nothing), a boolean is converted
to `0` or `1`, and `null`/`undefined` are loosely equal only to each other,
never to a number. -/
def looseEqTrue : JSValue → Bool
  | JSValue.undef => false
  | JSValue.null => false
  | JSValue.bool b => b
  | JSValue.num n => n == 1
  | JSValue.str s =>
    match strToInt? s with
    | some n => n == 1
    | none => false

/-- A DOM element: an identity (so that jQuery selections captured at load
time can refer to it while its class list is later mutated), its class list,
and its HTML data attributes as raw strings (`data-message-id` is stored
under key "message-id", etc.). -/
structure Elem where
  eid : Nat
  classes : List String
  attrs : List (String × String)
  deriving Repr, DecidableEq

/-- Read a raw data attribute of an element. -/
def lookupAttr (e : Elem) (key : String) : Option String :=
  (e.attrs.find? (fun p => p.1 == key)).map (fun p => p.2)

/-- jQuery `.data(key)` on a single element: the raw attribute run through
jQuery's type conversion, `undefined` when the attribute is absent. -/
def elemData (e : Elem) (key : String) : JSValue :=
  match lookupAttr e key with
  | some s => jqDataConvert s
  | none => JSValue.undef

/-- A click event: the target element followed by its ancestors, nearest
first, plus the default-action flag set by `preventDefault()`. -/
structure Event where
  chain : List Elem
  defaultPrevented : Bool
  deriving Repr, DecidableEq

/-- jQuery `$(target).closest(sel)` for a class selector: the first element
of the target-to-root chain carrying the class, if any. -/
def closestWithClass (chain : List Elem) (cls : String) : Option Elem :=
  chain.find? (fun e => e.classes.contains cls)

/-- An outgoing HTTP request as axios assembles it: method, URL, optional
body, and the headers taken from the client's defaults at call time. -/
structure Request where
  method : String
  url : String
  body : Option String
  headers : List (String × JSValue)
  deriving Repr, DecidableEq

/-- JavaScript object property assignment on the axios default-header table:
the key now maps to the new value, other keys are untouched. -/
def setHeader (hs : List (String × JSValue)) (key : String) (v : JSValue) :
    List (String × JSValue) :=
  (key, v) :: hs.filter (fun p => !(p.1 == key))

/-- Look a header up in a header table. -/
def lookupHeader (hs : List (String × JSValue)) (key : String) : Option JSValue :=
  (hs.find? (fun p => p.1 == key)).map (fun p => p.2)

/-- `axios.post(url)` with no data argument: a POST request with no body
whose headers are the client's current defaults. -/
def axiosPost (defaults : List (String × JSValue)) (url : String) : Request :=
  { method := "POST", url := url, body := none, headers := defaults }

/-- The module-level state the handler closes over: the page (a list of
elements), the two jQuery selections captured when the script loaded
(`$favButton = $(".fav-button")` and `$favIcon = $(".fav-icon")`, stored as
the selected element ids), and the axios default-header table. -/
structure ModuleState where
  page : List Elem
  favButtonIds : List Nat
  favIconIds : List Nat
  axiosDefaults : List (String × JSValue)
  deriving Repr, DecidableEq

/-- The ids of the elements a class selector matches, in document order. -/
def selectIds (page : List Elem) (cls : String) : List Nat :=
  (page.filter (fun e => e.classes.contains cls)).map (fun e => e.eid)

/-- Module load: run the three `const` declarations at the top of the script,
capturing the `.fav-button` and `.fav-icon` selections. -/
def loadModule (page : List Elem) : ModuleState :=
  { page := page
    favButtonIds := selectIds page "fav-button"
    favIconIds := selectIds page "fav-icon"
    axiosDefaults := [] }

/-- Find the element of the page carrying a given id. -/
def findElem (page : List Elem) (i : Nat) : Option Elem :=
  page.find? (fun e => e.eid == i)

/-- jQuery `.data(key)` on a stored selection: reads from the first selected
element, `undefined` when the selection is empty. -/
def collectionData (m : ModuleState) (ids : List Nat) (key : String) : JSValue :=
  match ids.head? with
  | none => JSValue.undef
  | some i =>
    match findElem m.page i with
    | none => JSValue.undef
    | some e => elemData e key

/-- The hard-coded backend base URL from line 3 of the script. -/
def BASE_URL : String := "http://localhost:5001/api"

/-- The observable actions the handler performs, in program order:
suppressing the default action, console logging, assigning an axios default
header, and issuing an HTTP request. -/
inductive Action where
  | preventDefault
  | log (msg : String) (args : List JSValue)
  | setDefaultHeader (key : String) (v : JSValue)
  | post (req : Request)
  deriving Repr, DecidableEq

/-- jQuery `.removeClass`: drop each listed class from a class list. -/
def removeClassList (cs : List String) (rem : List String) : List String :=
  cs.filter (fun c => !(rem.contains c))

/-- jQuery `.addClass`: append each listed class not already present, in
order. -/
def addClassList (cs : List String) (add : List String) : List String :=
  add.foldl (fun acc c => if c ∈ acc then acc else acc ++ [c]) cs

/-- The if/else on `resp.data.favorited == true` (lines 19-24 of the script),
as a transformation of one icon element's class list: the true branch is
`removeClass("bi-star").addClass("bi-star-fill text-warning")`, the else
branch is `removeClass("bi-star-fill text-warning").addClass("bi-star")`. -/
def applyFavToClasses (fav : JSValue) (cs : List String) : List String :=
  if looseEqTrue fav then
    addClassList (removeClassList cs ["bi-star"]) ["bi-star-fill", "text-warning"]
  else
    addClassList (removeClassList cs ["bi-star-fill", "text-warning"]) ["bi-star"]

/-- JSON field access `obj.field`: `undefined` when the field is absent. -/
def getField (obj : List (String × JSValue)) (key : String) : JSValue :=
  match obj.find? (fun p => p.1 == key) with
  | some p => p.2
  | none => JSValue.undef

/-- A resolved HTTP response: its parsed JSON body (`resp.data`). -/
structure Response where
  data : List (String × JSValue)
  deriving Repr, DecidableEq

/-- How the awaited `axios.post` promise settles: it resolves with a
response, or it rejects (network failure, non-2xx status, malformed payload
— axios rejects in all three cases) with an error. -/
inductive Outcome where
  | resolves (resp : Response)
  | rejects (err : String)
  deriving Repr, DecidableEq

/-- Line 11 of the script,
`$(evt.target).closest(".like-form").data("message-id")`: `.data` on the
(possibly empty) `closest` selection, `undefined` when no ancestor carries
the class. -/
def resolveMessageId (evt : Event) : JSValue :=
  match closestWithClass evt.chain "like-form" with
  | some el => elemData el "message-id"
  | none => JSValue.undef

/-- Result of the synchronous prefix of `toggleLike`, up to and including
issuing the POST: the updated module state, the updated event, the issued
request, and the trace of actions in program order. -/
structure PreResult where
  state : ModuleState
  evt : Event
  req : Request
  trace : List Action
  deriving Repr, DecidableEq

/-- Lines 9-17 of the script: `evt.preventDefault()`, the logs, resolving
`messageId` from the closest `.like-form` ancestor and `csrf_token` from the
module-scoped `$favButton`, assigning
`axios.defaults.headers.common["X-CSRFToken"]`, and issuing
`axios.post(BASE_URL + "/messages/" + messageId + "/like")` — everything
before the `await` suspends the handler. -/
def toggleLikePre (m : ModuleState) (evt : Event) : PreResult :=
  let evt1 : Event := { evt with defaultPrevented := true }
  let messageId : JSValue := resolveMessageId evt1
  let csrf_token : JSValue := collectionData m m.favButtonIds "csrf"
  let defaults := setHeader m.axiosDefaults "X-CSRFToken" csrf_token
  let url := BASE_URL ++ "/messages/" ++ jsToString messageId ++ "/like"
  let req := axiosPost defaults url
  { state := { m with axiosDefaults := defaults }
    evt := evt1
    req := req
    trace := [Action.preventDefault,
              Action.log "This was toggled" [],
              Action.log "This is the csrf:" [csrf_token],
              Action.log "This is messageId" [messageId],
              Action.setDefaultHeader "X-CSRFToken" csrf_token,
              Action.post req] }

/-- Lines 19-24 of the script, the continuation run when the response
arrives: mutate the class list of every element of the module-scoped
`$favIcon` selection according to `resp.data.favorited`; no other element
and no other state is touched. -/
def toggleLikePost (m : ModuleState) (respData : List (String × JSValue)) : ModuleState :=
  let fav := getField respData "favorited"
  { m with
    page := m.page.map (fun e =>
      if e.eid ∈ m.favIconIds then { e with classes := applyFavToClasses fav e.classes }
      else e) }

/-- One full invocation of `toggleLike`: the trace and updated event from the
synchronous prefix, then — depending on how the promise settles — either the
class mutation runs, or the rejection propagates out of the handler
(`rejected = some err`) leaving the page exactly as the prefix left it. -/
structure RunResult where
  trace : List Action
  evt : Event
  final : ModuleState
  rejected : Option String
  deriving Repr, DecidableEq

/-- Run `toggleLike` against a given settling of its HTTP request. -/
def toggleLike (m : ModuleState) (evt : Event) (outcome : Outcome) : RunResult :=
  let pre := toggleLikePre m evt
  match outcome with
  | Outcome.resolves resp =>
    { trace := pre.trace, evt := pre.evt
      final := toggleLikePost pre.state resp.data, rejected := none }
  | Outcome.rejects err =>
    { trace := pre.trace, evt := pre.evt, final := pre.state, rejected := some err }

/-- The requests a trace issues, in order. -/
def postedRequests (t : List Action) : List Request :=
  t.filterMap (fun a => match a with | Action.post r => some r | _ => none)

/-- Result of two overlapping invocations: both issued requests, and the
final module state. -/
structure RaceResult where
  requests : List Request
  final : ModuleState
  deriving Repr, DecidableEq

/-- Two clicks racing on the browser event loop: the second click is handled
before the first response arrives, so both synchronous prefixes run (in click
order, each issuing its own POST — nothing cancels the first), both handlers
suspend at `await`, and each continuation runs when its response arrives.
`arrivals` lists the response payloads in arrival order, which need not be
click order; the continuations are applied in that order. -/
def raceRun (m : ModuleState) (e1 e2 : Event)
    (arrivals : List (List (String × JSValue))) : RaceResult :=
  let p1 := toggleLikePre m e1
  let p2 := toggleLikePre p1.state e2
  { requests := [p1.req, p2.req]
    final := arrivals.foldl (fun s d => toggleLikePost s d) p2.state }

/-- The visual "starred" state of an icon's class list: `bi-star-fill` and
`text-warning` present, `bi-star` absent. -/
def iconStarred (cs : List String) : Prop :=
  "bi-star-fill" ∈ cs ∧ "text-warning" ∈ cs ∧ "bi-star" ∉ cs

/-- The visual "unstarred" state of an icon's class list: `bi-star` present,
`bi-star-fill` and `text-warning` absent. -/
def iconUnstarred (cs : List String) : Prop :=
  "bi-star" ∈ cs ∧ "bi-star-fill" ∉ cs ∧ "text-warning" ∉ cs

instance (cs : List String) : Decidable (iconStarred cs) := by
  unfold iconStarred; infer_instance

instance (cs : List String) : Decidable (iconUnstarred cs) := by
  unfold iconUnstarred; infer_instance

/-- Whether an action is the `preventDefault` call. -/
def isPreventDefaultAct : Action → Bool
  | Action.preventDefault => true
  | _ => false

/-- Whether an action issues an HTTP request. -/
def isPostAct : Action → Bool
  | Action.post _ => true
  | _ => false

/-- Whether an action assigns an axios default header. -/
def isSetHeaderAct : Action → Bool
  | Action.setDefaultHeader _ _ => true
  | _ => false

/-- A concrete page used to instantiate the theorems: two favorite buttons
(so "first" is observable), two like-forms, two favorite icons, and an
unrelated element. -/
def pageW : List Elem :=
  [⟨1, ["fav-button"], [("csrf", "tok1")]⟩,
   ⟨2, ["fav-button"], [("csrf", "tok2")]⟩,
   ⟨3, ["like-form"], [("message-id", "42")]⟩,
   ⟨4, ["fav-icon", "bi-star"], []⟩,
   ⟨5, ["like-form"], [("message-id", "7")]⟩,
   ⟨6, ["fav-icon", "bi-star"], []⟩,
   ⟨7, ["other"], []⟩]

/-- The module state after the script loads against `pageW`. -/
def mW : ModuleState := loadModule pageW

/-- A click inside the first like-form: the target's ancestor chain reaches
the element with `data-message-id = "42"`. -/
def evtW : Event :=
  { chain := [⟨8, [], []⟩, ⟨3, ["like-form"], [("message-id", "42")]⟩]
    defaultPrevented := false }

/-- A click inside the second like-form. -/
def evtW2 : Event :=
  { chain := [⟨9, [], []⟩, ⟨5, ["like-form"], [("message-id", "7")]⟩]
    defaultPrevented := false }

/-- A click whose target has no `like-form` ancestor. -/
def evtNoForm : Event :=
  { chain := [⟨8, [], []⟩, ⟨7, ["other"], []⟩], defaultPrevented := false }

/-- A response resolving with the boolean payload favorited = true. -/
def respT : Response := ⟨[("favorited", JSValue.bool true)]⟩

/-- A response resolving with the boolean payload favorited = false. -/
def respF : Response := ⟨[("favorited", JSValue.bool false)]⟩

/-- jQuery's data conversion never changes how the value prints: interpolating
the converted value into a template literal gives back the original attribute
text. -/
theorem jsToString_jqDataConvert (s : String) : jsToString (jqDataConvert s) = s := by
  unfold jqDataConvert
  split
  · simp_all [jsToString]
  · split
    · simp_all [jsToString]
    · split
      · simp_all [jsToString]
      · split
        · split
          · simp_all [jsToString]
          · rfl
        · rfl

theorem mem_removeClassList (a : String) (cs rem : List String) :
    a ∈ removeClassList cs rem ↔ a ∈ cs ∧ a ∉ rem := by
  simp [removeClassList]

theorem mem_addClassList (a : String) (cs add : List String) :
    a ∈ addClassList cs add ↔ a ∈ cs ∨ a ∈ add := by
  induction add generalizing cs with
  | nil => simp [addClassList]
  | cons c rest ih =>
    show a ∈ addClassList (if c ∈ cs then cs else cs ++ [c]) rest ↔ _
    rw [ih]
    by_cases hc : c ∈ cs
    · simp only [if_pos hc, List.mem_cons]
      constructor
      · rintro (h | h)
        · exact Or.inl h
        · exact Or.inr (Or.inr h)
      · rintro (h | h | h)
        · exact Or.inl h
        · exact Or.inl (h ▸ hc)
        · exact Or.inr h
    · simp only [if_neg hc, List.mem_append, List.mem_singleton, List.mem_cons]
      tauto

theorem applyFav_starred (fav : JSValue) (cs : List String)
    (h : looseEqTrue fav = true) : iconStarred (applyFavToClasses fav cs) := by
  unfold applyFavToClasses
  rw [if_pos h]
  refine ⟨?_, ?_, ?_⟩
  · rw [mem_addClassList]; right; simp
  · rw [mem_addClassList]; right; simp
  · rw [mem_addClassList, mem_removeClassList]
    rintro (⟨-, hn⟩ | hm)
    · exact hn (by simp)
    · simp at hm

theorem applyFav_unstarred (fav : JSValue) (cs : List String)
    (h : looseEqTrue fav = false) : iconUnstarred (applyFavToClasses fav cs) := by
  unfold applyFavToClasses
  rw [if_neg (by simp [h])]
  refine ⟨?_, ?_, ?_⟩
  · rw [mem_addClassList]; right; simp
  · rw [mem_addClassList, mem_removeClassList]
    rintro (⟨-, hn⟩ | hm)
    · exact hn (by simp)
    · simp at hm
  · rw [mem_addClassList, mem_removeClassList]
    rintro (⟨-, hn⟩ | hm)
    · exact hn (by simp)
    · simp at hm

theorem lookupHeader_setHeader (hs : List (String × JSValue)) (key : String)
    (v : JSValue) : lookupHeader (setHeader hs key v) key = some v := by
  simp [lookupHeader, setHeader, List.find?]

/-- Elements of a page with no repeated ids are determined by their id. -/
theorem eid_injective {page : List Elem} (hnd : (page.map Elem.eid).Nodup)
    {a b : Elem} (ha : a ∈ page) (hb : b ∈ page) (h : a.eid = b.eid) : a = b :=
  List.inj_on_of_nodup_map hnd ha hb h

/-- For a page with no repeated ids, membership of an element's id in a
class selection is exactly carrying the class. -/
theorem mem_selectIds {page : List Elem} (hnd : (page.map Elem.eid).Nodup)
    {e : Elem} (he : e ∈ page) (cls : String) :
    e.eid ∈ selectIds page cls ↔ cls ∈ e.classes := by
  unfold selectIds
  constructor
  · intro h
    rcases List.mem_map.mp h with ⟨e2, he2, heq⟩
    rcases List.mem_filter.mp he2 with ⟨he2p, hcl⟩
    have : e2 = e := eid_injective hnd he2p he heq
    subst this
    simpa using hcl
  · intro h
    exact List.mem_map.mpr ⟨e, List.mem_filter.mpr ⟨he, by simpa using h⟩, rfl⟩

/-- For a page with no repeated ids, looking an element up by its own id
finds it. -/
theorem findElem_self {page : List Elem} (hnd : (page.map Elem.eid).Nodup)
    {e : Elem} (he : e ∈ page) : findElem page e.eid = some e := by
  induction page with
  | nil => cases he
  | cons a t ih =>
    rcases List.mem_cons.mp he with rfl | het
    · simp [findElem, List.find?]
    · have hnd2 : (t.map Elem.eid).Nodup := (List.nodup_cons.mp hnd).2
      have hne : (a.eid == e.eid) = false := by
        apply beq_false_of_ne
        intro hcontra
        have : a.eid ∈ t.map Elem.eid := hcontra ▸ List.mem_map.mpr ⟨e, het, rfl⟩
        exact (List.nodup_cons.mp hnd).1 this
      show List.find? _ (a :: t) = some e
      rw [List.find?_cons]
      simp only [hne]
      exact ih hnd2 het

theorem toggleLike_trace (m : ModuleState) (evt : Event) (outcome : Outcome) :
    (toggleLike m evt outcome).trace = (toggleLikePre m evt).trace := by
  cases outcome <;> rfl

theorem postedRequests_toggleLike (m : ModuleState) (evt : Event) (outcome : Outcome) :
    postedRequests (toggleLike m evt outcome).trace = [(toggleLikePre m evt).req] := by
  cases outcome <;> rfl

theorem toggleLikePre_req (m : ModuleState) (evt : Event) :
    (toggleLikePre m evt).req =
      axiosPost
        (setHeader m.axiosDefaults "X-CSRFToken" (collectionData m m.favButtonIds "csrf"))
        (BASE_URL ++ "/messages/" ++ jsToString (resolveMessageId evt) ++ "/like") := rfl

/-- What the continuation does to each element of the page: elements of the
`$favIcon` selection get the branch's class mutation, every other element is
untouched. -/
theorem toggleLikePost_icon (m : ModuleState) (d : List (String × JSValue)) :
    ∀ e ∈ (toggleLikePost m d).page, e.eid ∈ m.favIconIds →
      (looseEqTrue (getField d "favorited") = true → iconStarred e.classes) ∧
      (looseEqTrue (getField d "favorited") = false → iconUnstarred e.classes) := by
  intro e he hid
  unfold toggleLikePost at he
  simp only [List.mem_map] at he
  obtain ⟨e0, he0, rfl⟩ := he
  by_cases h0 : e0.eid ∈ m.favIconIds
  · simp only [if_pos h0]
    exact ⟨fun ht => applyFav_starred _ _ ht, fun hf => applyFav_unstarred _ _ hf⟩
  · rw [if_neg h0] at hid ⊢
    exact absurd hid h0

/-- C1: for every click whose target has an ancestor with class `like-form`
carrying `data-message-id` = m, the handler issues exactly one POST, to
`http://localhost:5001/api/messages/m/like` (path `/api/messages/m/like`),
with no request body — whatever the response later does. -/
theorem C1_single_post_to_message_url (m : ModuleState) (evt : Event)
    (outcome : Outcome) (el : Elem) (s : String)
    (hcl : closestWithClass evt.chain "like-form" = some el)
    (hattr : lookupAttr el "message-id" = some s) :
    (postedRequests (toggleLike m evt outcome).trace).length = 1 ∧
    ∀ req ∈ postedRequests (toggleLike m evt outcome).trace,
      req.method = "POST" ∧
      req.url = "http://localhost:5001/api/messages/" ++ s ++ "/like" ∧
      req.body = none := by
  rw [postedRequests_toggleLike]
  refine ⟨rfl, ?_⟩
  intro req hreq
  rw [List.mem_singleton] at hreq
  subst hreq
  rw [toggleLikePre_req]
  refine ⟨rfl, ?_, rfl⟩
  show BASE_URL ++ "/messages/" ++ jsToString (resolveMessageId evt) ++ "/like" = _
  have hmid : resolveMessageId evt = jqDataConvert s := by
    unfold resolveMessageId
    rw [hcl]
    show elemData el "message-id" = jqDataConvert s
    unfold elemData
    rw [hattr]
  rw [hmid, jsToString_jqDataConvert]
  show ("http://localhost:5001/api" ++ "/messages/") ++ s ++ "/like" = _
  rfl

/-- C2: whenever the response resolves with `favorited` equal to the boolean
`true`, every icon in the module-scoped selection ends up with `bi-star-fill`
and `text-warning` present and `bi-star` absent. -/
theorem C2_favorited_true_stars_icon (m : ModuleState) (evt : Event)
    (resp : Response)
    (hfav : getField resp.data "favorited" = JSValue.bool true) :
    ∀ e ∈ (toggleLike m evt (Outcome.resolves resp)).final.page,
      e.eid ∈ m.favIconIds → iconStarred e.classes := by
  intro e he hid
  exact (toggleLikePost_icon (toggleLikePre m evt).state resp.data e he hid).1
    (by rw [hfav]; rfl)

/-- C3: whenever the response resolves with `favorited` equal to the boolean
`false`, every icon in the module-scoped selection ends up with `bi-star`
present and neither `bi-star-fill` nor `text-warning`. -/
theorem C3_favorited_false_unstars_icon (m : ModuleState) (evt : Event)
    (resp : Response)
    (hfav : getField resp.data "favorited" = JSValue.bool false) :
    ∀ e ∈ (toggleLike m evt (Outcome.resolves resp)).final.page,
      e.eid ∈ m.favIconIds → iconUnstarred e.classes := by
  intro e he hid
  exact (toggleLikePost_icon (toggleLikePre m evt).state resp.data e he hid).2
    (by rw [hfav]; rfl)

/-- C4: every invocation assigns the shared client's default header
`X-CSRFToken` to the `data-csrf` value of the module-scoped favorite button
before issuing the POST (the assignment precedes the POST in the trace), so
the toggle request itself carries that header, and — the defaults surviving
the call in both outcomes — so does every request the client assembles from
that point on. -/
theorem C4_csrf_default_header (m : ModuleState) (evt : Event)
    (outcome : Outcome) :
    (∀ req ∈ postedRequests (toggleLike m evt outcome).trace,
       lookupHeader req.headers "X-CSRFToken" =
         some (collectionData m m.favButtonIds "csrf")) ∧
    (∃ i j, (toggleLike m evt outcome).trace.findIdx? isSetHeaderAct = some i ∧
            (toggleLike m evt outcome).trace.findIdx? isPostAct = some j ∧ i < j) ∧
    lookupHeader (toggleLike m evt outcome).final.axiosDefaults "X-CSRFToken" =
      some (collectionData m m.favButtonIds "csrf") ∧
    ∀ url, lookupHeader (axiosPost (toggleLike m evt outcome).final.axiosDefaults url).headers
        "X-CSRFToken" = some (collectionData m m.favButtonIds "csrf") := by
  refine ⟨?_, ?_, ?_, ?_⟩
  · intro req hreq
    rw [postedRequests_toggleLike, List.mem_singleton] at hreq
    subst hreq
    rw [toggleLikePre_req]
    exact lookupHeader_setHeader _ _ _
  · exact ⟨4, 5, by rw [toggleLike_trace]; rfl, by rw [toggleLike_trace]; rfl, by omega⟩
  · cases outcome <;> exact lookupHeader_setHeader _ _ _
  · intro url
    cases outcome <;> exact lookupHeader_setHeader _ _ _

/-- C5: when the request rejects, the page — in particular every icon's
class list — is exactly what it was before the click, the handler retried
nothing (exactly one POST was issued), and the rejection propagates out of
the handler unhandled. -/
theorem C5_rejection_is_not_handled (m : ModuleState) (evt : Event)
    (err : String) :
    (toggleLike m evt (Outcome.rejects err)).final.page = m.page ∧
    (toggleLike m evt (Outcome.rejects err)).rejected = some err ∧
    (postedRequests (toggleLike m evt (Outcome.rejects err)).trace).length = 1 :=
  ⟨rfl, rfl, rfl⟩

/-- C6: every invocation suppresses the event's default action, and does so
before issuing the HTTP request — `preventDefault` precedes the POST in the
trace — for resolving and rejecting outcomes alike, whatever `favorited`
turns out to be. -/
theorem C6_default_action_suppressed (m : ModuleState) (evt : Event)
    (outcome : Outcome) :
    (toggleLike m evt outcome).evt.defaultPrevented = true ∧
    ∃ i j, (toggleLike m evt outcome).trace.findIdx? isPreventDefaultAct = some i ∧
           (toggleLike m evt outcome).trace.findIdx? isPostAct = some j ∧ i < j := by
  cases outcome <;> exact ⟨rfl, 0, 5, rfl, rfl, by omega⟩

/-- C7: when a second click is handled before the first response arrives,
both prefixes run and two overlapping POSTs are issued — the first is not
cancelled — and the class mutations run in response-arrival order, so the
icon's final visual state is the one dictated by whichever response resolves
last, regardless of click order. -/
theorem C7_overlapping_clicks_race (m : ModuleState) (e1 e2 : Event)
    (d1 d2 : List (String × JSValue)) :
    (raceRun m e1 e2 [d1, d2]).requests.length = 2 ∧
    ∀ e ∈ (raceRun m e1 e2 [d1, d2]).final.page, e.eid ∈ m.favIconIds →
      (looseEqTrue (getField d2 "favorited") = true → iconStarred e.classes) ∧
      (looseEqTrue (getField d2 "favorited") = false → iconUnstarred e.classes) := by
  refine ⟨rfl, ?_⟩
  intro e he hid
  exact toggleLikePost_icon
    (toggleLikePost (toggleLikePre (toggleLikePre m e1).state e2).state d1) d2 e he hid

/-- C8: the branch condition is the loose comparison `favorited == true`,
not a boolean test: the numeric `1` and the string "1" take the starred
branch, while truthy non-numeric strings such as "yes" or "true" fail the
comparison and take the else branch, unstarring the icon — and in general
the branch taken is exactly the value of the loose comparison. -/
theorem C8_loose_equality_on_favorited :
    looseEqTrue (JSValue.num 1) = true ∧
    looseEqTrue (JSValue.str "1") = true ∧
    looseEqTrue (JSValue.str "yes") = false ∧
    looseEqTrue (JSValue.str "true") = false ∧
    (∀ (m : ModuleState) (evt : Event) (v : JSValue), looseEqTrue v = true →
      ∀ e ∈ (toggleLike m evt (Outcome.resolves ⟨[("favorited", v)]⟩)).final.page,
        e.eid ∈ m.favIconIds → iconStarred e.classes) ∧
    (∀ (m : ModuleState) (evt : Event) (v : JSValue), looseEqTrue v = false →
      ∀ e ∈ (toggleLike m evt (Outcome.resolves ⟨[("favorited", v)]⟩)).final.page,
        e.eid ∈ m.favIconIds → iconUnstarred e.classes) := by
  refine ⟨by decide, by decide, by decide, by decide, ?_, ?_⟩
  · intro m evt v hv e he hid
    exact (toggleLikePost_icon (toggleLikePre m evt).state [("favorited", v)] e he hid).1
      (by show looseEqTrue v = true; exact hv)
  · intro m evt v hv e he hid
    exact (toggleLikePost_icon (toggleLikePre m evt).state [("favorited", v)] e he hid).2
      (by show looseEqTrue v = false; exact hv)

theorem head?_filter_eq_find? {α : Type} (p : α → Bool) (l : List α) :
    (l.filter p).head? = l.find? p := by
  induction l with
  | nil => rfl
  | cons a t ih =>
    by_cases h : p a <;> simp [List.filter_cons, List.find?_cons, h, ih]

/-- On a page with no repeated element ids, the csrf value the handler reads
is the `data-csrf` of the first element matching `.fav-button`. -/
theorem collectionData_loadModule (page : List Elem)
    (hnd : (page.map Elem.eid).Nodup) (key : String) :
    collectionData (loadModule page) (selectIds page "fav-button") key =
      (page.find? (fun e => e.classes.contains "fav-button")).elim JSValue.undef
        (fun b => elemData b key) := by
  unfold collectionData selectIds
  rw [List.head?_map, head?_filter_eq_find?]
  cases hfind : page.find? (fun e => e.classes.contains "fav-button") with
  | none => rfl
  | some b =>
    have hb : b ∈ page := List.mem_of_find?_eq_some hfind
    show (match findElem (loadModule page).page b.eid with
          | none => JSValue.undef
          | some e => elemData e key) = elemData b key
    rw [show (loadModule page).page = page from rfl, findElem_self hnd hb]

/-- C9: the handler reads from and writes to the module-scoped load-time
selections only, independent of which like-form was clicked: the final page
is the same for any two events; exactly the elements carrying `fav-icon` at
load time get the class mutation, every other element is untouched; and the
csrf header value is the `data-csrf` of the first `.fav-button` element. -/
theorem C9_module_scoped_selections (page : List Elem) (evt evt2 : Event)
    (resp : Response) (hnd : (page.map Elem.eid).Nodup) :
    (toggleLike (loadModule page) evt (Outcome.resolves resp)).final.page =
      (toggleLike (loadModule page) evt2 (Outcome.resolves resp)).final.page ∧
    (toggleLike (loadModule page) evt (Outcome.resolves resp)).final.page =
      page.map (fun e =>
        if "fav-icon" ∈ e.classes then
          { e with classes := applyFavToClasses (getField resp.data "favorited") e.classes }
        else e) ∧
    ∀ req ∈ postedRequests (toggleLike (loadModule page) evt (Outcome.resolves resp)).trace,
      lookupHeader req.headers "X-CSRFToken" =
        some ((page.find? (fun e => e.classes.contains "fav-button")).elim JSValue.undef
          (fun b => elemData b "csrf")) := by
  refine ⟨rfl, ?_, ?_⟩
  · show (toggleLikePost (toggleLikePre (loadModule page) evt).state resp.data).page = _
    unfold toggleLikePost
    apply List.map_congr_left
    intro e he
    have hmem : e.eid ∈ (toggleLikePre (loadModule page) evt).state.favIconIds ↔
        "fav-icon" ∈ e.classes :=
      mem_selectIds hnd he "fav-icon"
    by_cases h : "fav-icon" ∈ e.classes
    · rw [if_pos (hmem.mpr h), if_pos h]
    · rw [if_neg (fun hc => h (hmem.mp hc)), if_neg h]
  · intro req hreq
    rw [postedRequests_toggleLike, List.mem_singleton] at hreq
    subst hreq
    rw [toggleLikePre_req]
    show lookupHeader (setHeader (loadModule page).axiosDefaults "X-CSRFToken"
      (collectionData (loadModule page) (loadModule page).favButtonIds "csrf")) "X-CSRFToken" = _
    rw [lookupHeader_setHeader]
    rw [show (loadModule page).favButtonIds = selectIds page "fav-button" from rfl]
    rw [collectionData_loadModule page hnd "csrf"]

/-- C10: when the target has no `like-form` ancestor, nothing guards the
request: `messageId` is `undefined`, the interpolation turns it into the
literal text "undefined", and the POST is still issued, to
`http://localhost:5001/api/messages/undefined/like`. -/
theorem C10_missing_ancestor_posts_undefined (m : ModuleState) (evt : Event)
    (outcome : Outcome)
    (h : closestWithClass evt.chain "like-form" = none) :
    (postedRequests (toggleLike m evt outcome).trace).length = 1 ∧
    ∀ req ∈ postedRequests (toggleLike m evt outcome).trace,
      req.method = "POST" ∧
      req.url = "http://localhost:5001/api/messages/undefined/like" := by
  rw [postedRequests_toggleLike]
  refine ⟨rfl, ?_⟩
  intro req hreq
  rw [List.mem_singleton] at hreq
  subst hreq
  rw [toggleLikePre_req]
  refine ⟨rfl, ?_⟩
  show BASE_URL ++ "/messages/" ++ jsToString (resolveMessageId evt) ++ "/like" = _
  have hmid : resolveMessageId evt = JSValue.undef := by
    unfold resolveMessageId
    rw [h]
  rw [hmid]
  rfl

/-- Witness for C1: on the concrete page, clicking inside the form with
`data-message-id = "42"` posts exactly once, to `/api/messages/42/like`. -/
theorem C1_witness :
    (postedRequests (toggleLike mW evtW (Outcome.resolves respT)).trace).length = 1 ∧
    (toggleLikePre mW evtW).req.method = "POST" ∧
    (toggleLikePre mW evtW).req.url = "http://localhost:5001/api/messages/" ++ "42" ++ "/like" ∧
    (toggleLikePre mW evtW).req.body = none := by
  have h := C1_single_post_to_message_url mW evtW (Outcome.resolves respT)
    ⟨3, ["like-form"], [("message-id", "42")]⟩ "42" (by decide) (by decide)
  have h2 := h.2 (toggleLikePre mW evtW).req (by decide)
  exact ⟨h.1, h2.1, h2.2.1, h2.2.2⟩

/-- Witness for C2: after favorited = true resolves on the concrete page, the
icon's class list is starred. -/
theorem C2_witness : iconStarred ["fav-icon", "bi-star-fill", "text-warning"] :=
  C2_favorited_true_stars_icon mW evtW respT (by decide)
    ⟨4, ["fav-icon", "bi-star-fill", "text-warning"], []⟩ (by decide) (by decide)

/-- Witness for C3: after favorited = false resolves on the concrete page,
the icon's class list is unstarred. -/
theorem C3_witness : iconUnstarred ["fav-icon", "bi-star"] :=
  C3_favorited_false_unstars_icon mW evtW respF (by decide)
    ⟨4, ["fav-icon", "bi-star"], []⟩ (by decide) (by decide)

/-- Witness for C4: on the concrete page the issued request and the surviving
defaults both carry `X-CSRFToken: tok1`, the first button's token. -/
theorem C4_witness :
    lookupHeader (toggleLikePre mW evtW).req.headers "X-CSRFToken" =
      some (JSValue.str "tok1") ∧
    lookupHeader (toggleLike mW evtW (Outcome.resolves respT)).final.axiosDefaults
      "X-CSRFToken" = some (JSValue.str "tok1") ∧
    lookupHeader (axiosPost (toggleLike mW evtW (Outcome.resolves respT)).final.axiosDefaults
      "http://localhost:5001/api/other").headers "X-CSRFToken" = some (JSValue.str "tok1") := by
  have h := C4_csrf_default_header mW evtW (Outcome.resolves respT)
  refine ⟨?_, ?_, ?_⟩
  · exact (h.1 (toggleLikePre mW evtW).req (by decide)).trans (by decide)
  · exact h.2.2.1.trans (by decide)
  · exact (h.2.2.2 "http://localhost:5001/api/other").trans (by decide)

/-- Witness for C7: two overlapping clicks issue two requests, and with the
favorited = true response arriving first and the favorited = false response
last, the icon ends unstarred. -/
theorem C7_witness :
    (raceRun mW evtW evtW2 [respT.data, respF.data]).requests.length = 2 ∧
    iconUnstarred ["fav-icon", "bi-star"] := by
  have h := C7_overlapping_clicks_race mW evtW evtW2 respT.data respF.data
  exact ⟨h.1, (h.2 ⟨4, ["fav-icon", "bi-star"], []⟩ (by decide) (by decide)).2 (by decide)⟩

/-- Witness for C8: favorited = 1 stars the icon on the concrete page, while
favorited = "yes" unstars it. -/
theorem C8_witness :
    looseEqTrue (JSValue.num 1) = true ∧
    iconStarred ["fav-icon", "bi-star-fill", "text-warning"] ∧
    iconUnstarred ["fav-icon", "bi-star"] := by
  have h := C8_loose_equality_on_favorited
  refine ⟨h.1, ?_, ?_⟩
  · exact h.2.2.2.2.1 mW evtW (JSValue.num 1) (by decide)
      ⟨4, ["fav-icon", "bi-star-fill", "text-warning"], []⟩ (by decide) (by decide)
  · exact h.2.2.2.2.2 mW evtW (JSValue.str "yes") (by decide)
      ⟨4, ["fav-icon", "bi-star"], []⟩ (by decide) (by decide)

/-- Witness for C9: on the concrete page — two buttons, two forms, two icons,
one unrelated element — a click in either form mutates exactly the two icons
and the csrf header comes from the first button. -/
theorem C9_witness :
    (toggleLike (loadModule pageW) evtW (Outcome.resolves respT)).final.page =
      (toggleLike (loadModule pageW) evtW2 (Outcome.resolves respT)).final.page ∧
    (toggleLike (loadModule pageW) evtW (Outcome.resolves respT)).final.page =
      [⟨1, ["fav-button"], [("csrf", "tok1")]⟩,
       ⟨2, ["fav-button"], [("csrf", "tok2")]⟩,
       ⟨3, ["like-form"], [("message-id", "42")]⟩,
       ⟨4, ["fav-icon", "bi-star-fill", "text-warning"], []⟩,
       ⟨5, ["like-form"], [("message-id", "7")]⟩,
       ⟨6, ["fav-icon", "bi-star-fill", "text-warning"], []⟩,
       ⟨7, ["other"], []⟩] ∧
    lookupHeader (toggleLikePre (loadModule pageW) evtW).req.headers "X-CSRFToken" =
      some (JSValue.str "tok1") := by
  have h := C9_module_scoped_selections pageW evtW evtW2 respT (by decide)
  refine ⟨h.1, h.2.1.trans (by decide), ?_⟩
  exact (h.2.2 (toggleLikePre (loadModule pageW) evtW).req (by decide)).trans (by decide)

/-- Witness for C10: clicking outside any like-form on the concrete page
still posts, to `/api/messages/undefined/like`. -/
theorem C10_witness :
    (postedRequests (toggleLike mW evtNoForm (Outcome.resolves respT)).trace).length = 1 ∧
    (toggleLikePre mW evtNoForm).req.method = "POST" ∧
    (toggleLikePre mW evtNoForm).req.url =
      "http://localhost:5001/api/messages/undefined/like" := by
  have h := C10_missing_ancestor_posts_undefined mW evtNoForm (Outcome.resolves respT)
    (by decide)
  have h2 := h.2 (toggleLikePre mW evtNoForm).req (by decide)
  exact ⟨h.1, h2.1, h2.2⟩

end WarblerLikes
